import Mathlib

/-!
Verification of the offline-first core of the school management system:
the attendance upsert engine (controllers/attendanceController.js) and the
authentication and authorization layer (middleware/auth.js,
controllers/authController.js), shallowly embedded in Lean 4.
-/

namespace SchoolOS

/-! ## JavaScript truthiness helpers

The controllers test required fields with `!field`, which in JavaScript is
true for `undefined`, `null`, `0` and the empty string.  Fields that may be
absent are modelled as `Option`; `0` and `""` count as falsy as well. -/

def falsyNat : Option Nat → Bool
  | none => true
  | some n => n == 0

def falsyStr : Option String → Bool
  | none => true
  | some s => s == ""

/-- The controllers store `notes || null`: an absent or empty-string notes
value is persisted as SQL NULL, modelled as `none`. -/
def notesOrNull : Option String → Option String
  | none => none
  | some s => if s == "" then none else some s

/-! ## Attendance data model

One row of the `attendance` table (db/database.js, `createTables`): the
schema declares `UNIQUE(student_id, date)`.  `nextId` models the SQLite
AUTOINCREMENT primary key / `lastID`. -/

structure AttRecord where
  id : Nat
  student_id : Nat
  date : String
  status : String
  notes : Option String
deriving Repr, DecidableEq

structure AttendanceDB where
  records : List AttRecord
  nextId : Nat
deriving Repr, DecidableEq

/-- A submitted attendance item `{ student_id, date, status, notes }`;
any field may be missing from the request body. -/
structure AttItem where
  student_id : Option Nat := none
  date : Option String := none
  status : Option String := none
  notes : Option String := none
deriving Repr, DecidableEq

/-- The SQL predicate `student_id = ? AND date = ?`. -/
def pairMatch (sid : Nat) (d : String) (r : AttRecord) : Bool :=
  r.student_id == sid && r.date == d

/-- Number of attendance rows for a given (student, date) pair. -/
def pairCount (db : AttendanceDB) (sid : Nat) (d : String) : Nat :=
  db.records.countP (pairMatch sid d)

/-- The schema-level invariant: at most one attendance row per
(student, date) pair. -/
def UniquePairs (db : AttendanceDB) : Prop :=
  ∀ sid d, pairCount db sid d ≤ 1

inductive UpsertAction
  | created
  | updated
deriving Repr, DecidableEq

/-- Per-item entry of the `results` list returned by `recordAttendance`. -/
structure ItemResult where
  success : Bool
  action : Option UpsertAction
  rid : Option Nat
  error : Option String
deriving Repr, DecidableEq

structure Summary where
  total : Nat
  successful : Nat
  failed : Nat
deriving Repr, DecidableEq

/-- The HTTP envelope produced by `exports.recordAttendance`. -/
structure RecordResponse where
  httpStatus : Nat
  success : Bool
  results : List ItemResult
  summary : Summary
deriving Repr, DecidableEq

/-- Effect of `UPDATE attendance SET status = ?, notes = ?, updated_at =
CURRENT_TIMESTAMP WHERE student_id = ? AND date = ?`. -/
def updatedRecords (recs : List AttRecord) (sid : Nat) (d st : String)
    (nts : Option String) : List AttRecord :=
  recs.map fun r =>
    if pairMatch sid d r then { r with status := st, notes := nts } else r

/-- One iteration of the loop body of `exports.recordAttendance`: validate
the required fields, check existence of a row for (student_id, date), then
update in place or insert a fresh row. -/
def upsertItem (db : AttendanceDB) (it : AttItem) : AttendanceDB × ItemResult :=
  if falsyNat it.student_id || falsyStr it.date || falsyStr it.status then
    (db, ⟨false, none, none, some "Missing required fields: student_id, date, status"⟩)
  else
    let sid := it.student_id.getD 0
    let d := it.date.getD ""
    let st := it.status.getD ""
    match db.records.find? (pairMatch sid d) with
    | some ex =>
        ({ db with records := updatedRecords db.records sid d st (notesOrNull it.notes) },
         ⟨true, some .updated, some ex.id, none⟩)
    | none =>
        (⟨db.records ++ [⟨db.nextId, sid, d, st, notesOrNull it.notes⟩], db.nextId + 1⟩,
         ⟨true, some .created, some db.nextId, none⟩)

/-- The `for (const record of records)` loop of `exports.recordAttendance`. -/
def processRecords (db : AttendanceDB) : List AttItem → AttendanceDB × List ItemResult
  | [] => (db, [])
  | it :: rest =>
    let step := upsertItem db it
    let tail := processRecords step.1 rest
    (tail.1, step.2 :: tail.2)

/-- Embedding of `exports.recordAttendance`: a non-array body is wrapped into a
one-element list by the caller, so the input here is always a list.  The
handler replies with `res.json(...)`, i.e. HTTP 200, on every path that
does not throw. -/
def recordAttendance (db : AttendanceDB) (items : List AttItem) :
    AttendanceDB × RecordResponse :=
  let out := processRecords db items
  let sc := out.2.countP ItemResult.success
  let ec := out.2.countP fun r => !r.success
  (out.1, ⟨200, true, out.2, ⟨out.2.length, sc, ec⟩⟩)

/-! ## mark-all-present (`exports.markAllPresent`) -/

/-- One row of the `students` table, restricted to the columns the
mark-all-present query touches. -/
structure Student where
  id : Nat
  class_id : Option Nat
  status : String
deriving Repr, DecidableEq

/-- The query `SELECT id FROM students WHERE class_id = ? AND status = "active"`. -/
def activeStudentIds (students : List Student) (cid : Nat) : List Nat :=
  (students.filter fun s => s.class_id == some cid && s.status == "active").map Student.id

/-- Per-student entry of the `results` list of `exports.markAllPresent`:
the update branch reports no row id, the insert branch reports `lastID`. -/
structure MpItemResult where
  success : Bool
  action : Option UpsertAction
  student_id : Nat
  rid : Option Nat
  error : Option String
deriving Repr, DecidableEq

structure MpResponse where
  httpStatus : Nat
  success : Bool
  results : List MpItemResult
  summary : Summary
  error : Option String
deriving Repr, DecidableEq

/-- Loop body of `exports.markAllPresent`: existence check, then update to
`present` or insert of a fresh `present` row, with the shared note. -/
def markPresentStep (db : AttendanceDB) (nts : Option String) (d : String)
    (sid : Nat) : AttendanceDB × MpItemResult :=
  match db.records.find? (pairMatch sid d) with
  | some _ =>
      ({ db with records := updatedRecords db.records sid d "present" (notesOrNull nts) },
       ⟨true, some .updated, sid, none, none⟩)
  | none =>
      (⟨db.records ++ [⟨db.nextId, sid, d, "present", notesOrNull nts⟩], db.nextId + 1⟩,
       ⟨true, some .created, sid, some db.nextId, none⟩)

/-- The `for (const student of students)` loop of `exports.markAllPresent`. -/
def processStudents (db : AttendanceDB) (nts : Option String) (d : String) :
    List Nat → AttendanceDB × List MpItemResult
  | [] => (db, [])
  | sid :: rest =>
    let step := markPresentStep db nts d sid
    let tail := processStudents step.1 nts d rest
    (tail.1, step.2 :: tail.2)

/-- Embedding of `exports.markAllPresent`: validates `class_id` and `date`, loads the
active students of the class, 404s when none exist, otherwise applies the
present-upsert to each and reports aggregate counts. -/
def markAllPresent (students : List Student) (db : AttendanceDB)
    (class_id : Option Nat) (date : Option String) (nts : Option String) :
    AttendanceDB × MpResponse :=
  if falsyNat class_id || falsyStr date then
    (db, ⟨400, false, [], ⟨0, 0, 0⟩, some "class_id and date are required"⟩)
  else
    let ids := activeStudentIds students (class_id.getD 0)
    if ids.isEmpty then
      (db, ⟨404, false, [], ⟨0, 0, 0⟩, some "No active students found in this class"⟩)
    else
      let out := processStudents db nts (date.getD "") ids
      let sc := out.2.countP MpItemResult.success
      let ec := out.2.countP fun r => !r.success
      (out.1, ⟨200, true, out.2, ⟨out.2.length, sc, ec⟩, none⟩)

/-! ## Token service and authentication (middleware/auth.js) -/

def JWT_SECRET : String := "school-os-jwt-secret-change-in-production"

/-- The claims object carried by a JSON Web Token.  `generateToken` signs
`{ userId, username, role }`; the session fallback signs only
`{ userId, username }`, so `username` and `role` are optional. -/
structure JwtPayload where
  userId : Nat
  username : Option String
  role : Option String
  exp : Nat
deriving Repr, DecidableEq

/-- A bearer token: either a malformed string or a signed payload.  The
signature is modelled as an unforgeable MAC — the pair of the signing
secret and the signed payload. -/
inductive Token
  | malformed (raw : String)
  | signed (payload : JwtPayload) (sig : String × JwtPayload)
deriving Repr, DecidableEq

inductive JwtError
  | invalidToken
  | tokenExpired
deriving Repr, DecidableEq

/-- Modelled from the spec: the `verify` function of the external jsonwebtoken library,
which "cryptographically validates the signature and expiry; fails with
`InvalidToken` if the signature does not match or the structure is
malformed, and fails with `TokenExpired` if the current time is past the
embedded expiry".  Signature validation precedes the expiry check. -/
def jwtVerify (secret : String) (now : Nat) (t : Token) : Except JwtError JwtPayload :=
  match t with
  | .malformed _ => .error .invalidToken
  | .signed p sig =>
    if sig ≠ (secret, p) then .error .invalidToken
    else if p.exp ≤ now then .error .tokenExpired
    else .ok p

/-- Modelled from the spec: the `sign` function of the external jsonwebtoken library,
which embeds the given claims plus an expiry `expiresIn` seconds from now
and attaches a signature over the payload. -/
def jwtSign (secret : String) (now expiresInSec : Nat) (userId : Nat)
    (username role : Option String) : Token :=
  Token.signed ⟨userId, username, role, now + expiresInSec⟩
    (secret, ⟨userId, username, role, now + expiresInSec⟩)

/-- One row of the `users` table. -/
structure DbUser where
  id : Nat
  username : String
  email : String
  password_hash : String
  role : String
  full_name : String
  created_at : String
  updated_at : String
deriving Repr, DecidableEq

/-- Embedding of `generateToken` (middleware/auth.js): payload
`{ userId, username, role }`, `expiresIn: 24h`. -/
def generateToken (now : Nat) (u : DbUser) : Token :=
  jwtSign JWT_SECRET now (24 * 60 * 60) u.id (some u.username) (some u.role)

/-- The session fallback inside `authenticateToken`: when no bearer token
is present but the cookie session carries a user id, a temporary token is
signed over `{ userId, username }` with `expiresIn: 1h`. -/
def sessionBridgeToken (now : Nat) (sessionUserId : Nat)
    (sessionUsername : Option String) : Token :=
  jwtSign JWT_SECRET now (60 * 60) sessionUserId sessionUsername none

/-- A user row rendered as the column/value list SQLite returns for
`SELECT *`. -/
def userFullRow (u : DbUser) : List (String × String) :=
  [("id", toString u.id), ("username", u.username), ("email", u.email),
   ("password_hash", u.password_hash), ("role", u.role),
   ("full_name", u.full_name), ("created_at", u.created_at),
   ("updated_at", u.updated_at)]

/-- The explicit column list of the user lookup inside
`authenticateToken`: `SELECT id, username, email, role, full_name,
created_at FROM users WHERE id = ?`. -/
def authUserColumns : List String :=
  ["id", "username", "email", "role", "full_name", "created_at"]

/-- Projection of a row onto an explicit SELECT column list. -/
def selectColumns (cols : List String) (row : List (String × String)) :
    List (String × String) :=
  cols.filterMap fun k => (row.find? fun kv => kv.1 == k).map fun kv => (k, kv.2)

/-- The rest-destructuring `const (password_hash, ...userProfile) = user`
used by `exports.login` and `exports.getProfile`. -/
def omitPasswordHash (row : List (String × String)) : List (String × String) :=
  row.filter fun kv => kv.1 ≠ "password_hash"

/-- The request-side inputs `authenticateToken` inspects: the token
extracted from a `Bearer` authorization header, if any, and the legacy
cookie session fields. -/
structure AuthRequest where
  bearerToken : Option Token
  sessionUserId : Option Nat
  sessionUsername : Option String

/-- Outcome of the authentication middleware: either the request proceeds
with the loaded user row attached as `req.user`, or it is rejected with an
HTTP status and error string. -/
inductive AuthOutcome
  | ok (user : List (String × String))
  | fail (status : Nat) (error : String)
deriving Repr, DecidableEq

def findUserById (users : List DbUser) (uid : Nat) : Option DbUser :=
  users.find? fun u => u.id == uid

/-- Token acquisition inside `authenticateToken`: prefer the bearer token;
when absent, synthesize a 1-hour token from a truthy cookie-session user
id. -/
def extractToken (now : Nat) (req : AuthRequest) : Option Token :=
  match req.bearerToken with
  | some t => some t
  | none =>
    if !falsyNat req.sessionUserId then
      some (sessionBridgeToken now (req.sessionUserId.getD 0) req.sessionUsername)
    else none

/-- Embedding of `authenticateToken` (middleware/auth.js): bearer extraction, session
fallback, jwt verification with distinct rejections for the two jwt error
names, then the user lookup. -/
def authenticateToken (now : Nat) (users : List DbUser) (req : AuthRequest) :
    AuthOutcome :=
  match extractToken now req with
  | none => .fail 401 "Access denied. No token provided."
  | some t =>
    match jwtVerify JWT_SECRET now t with
    | .error .invalidToken => .fail 401 "Invalid token."
    | .error .tokenExpired => .fail 401 "Token expired. Please login again."
    | .ok decoded =>
      match findUserById users decoded.userId with
      | none => .fail 401 "Invalid token. User not found."
      | some u => .ok (selectColumns authUserColumns (userFullRow u))

/-- Outcome of an authorization guard middleware. -/
inductive GuardResult
  | proceed
  | reject (status : Nat) (error : String)
deriving Repr, DecidableEq

/-- The field `req.user.role` read off the attached row. -/
def userRole (row : List (String × String)) : Option String :=
  (row.find? fun kv => kv.1 == "role").map Prod.snd

/-- Embedding of `requireAdmin` (middleware/auth.js): 401 when `req.user` is absent,
403 when the role is not `admin`, otherwise `next()`. -/
def requireAdmin (user : Option (List (String × String))) : GuardResult :=
  match user with
  | none => .reject 401 "Authentication required."
  | some row =>
    if userRole row ≠ some "admin" then .reject 403 "Admin access required."
    else .proceed

/-- Modelled from the spec: the external bcrypt library — `compare`
succeeds exactly when the stored hash was produced from the password.
Hashing is modelled as injective tagging. -/
def bcryptHash (password : String) : String :=
  "bcrypt$" ++ password

def bcryptCompare (password hash : String) : Bool :=
  hash == bcryptHash password

def findUserByLogin (users : List DbUser) (username : String) : Option DbUser :=
  users.find? fun u => u.username == username || u.email == username

/-- The JSON envelope of `exports.login`. -/
structure LoginResponse where
  httpStatus : Nat
  success : Bool
  user : Option (List (String × String))
  token : Option Token
  error : Option String

/-- Embedding of `exports.login` (controllers/authController.js): validate presence of
credentials, load by username or email, compare the password hash, then
reply with the profile (password hash destructured away) and a fresh
24-hour token. -/
def login (now : Nat) (users : List DbUser) (username password : Option String) :
    LoginResponse :=
  if falsyStr username || falsyStr password then
    ⟨400, false, none, none, some "Username and password are required"⟩
  else
    match findUserByLogin users (username.getD "") with
    | none => ⟨401, false, none, none, some "Invalid username or password"⟩
    | some u =>
      if !bcryptCompare (password.getD "") u.password_hash then
        ⟨401, false, none, none, some "Invalid username or password"⟩
      else
        ⟨200, true, some (omitPasswordHash (userFullRow u)),
          some (generateToken now u), none⟩

/-- Embedding of `exports.getProfile`: re-serves `req.user` with the password hash
destructured away. -/
def getProfile (reqUser : List (String × String)) : List (String × String) :=
  omitPasswordHash reqUser

/-! ## Lemmas about the upsert engine -/

lemma pairMatch_update (sid' : Nat) (d' st : String)
    (nts : Option String) (r : AttRecord) :
    pairMatch sid' d' { r with status := st, notes := nts } = pairMatch sid' d' r := rfl

lemma countP_updatedRecords (recs : List AttRecord) (sid : Nat) (d st : String)
    (nts : Option String) (sid' : Nat) (d' : String) :
    (updatedRecords recs sid d st nts).countP (pairMatch sid' d') =
      recs.countP (pairMatch sid' d') := by
  unfold updatedRecords
  rw [List.countP_map]
  apply List.countP_congr
  intro r _
  by_cases h : pairMatch sid d r = true
  · simp [Function.comp, h, pairMatch_update]
  · simp [Function.comp, h]

lemma mem_updatedRecords_status (recs : List AttRecord) (sid : Nat) (d st : String)
    (nts : Option String) (r : AttRecord)
    (hr : r ∈ updatedRecords recs sid d st nts) (hm : pairMatch sid d r = true) :
    r.status = st ∧ r.notes = nts := by
  unfold updatedRecords at hr
  rcases List.mem_map.mp hr with ⟨x, hx, hfx⟩
  by_cases h : pairMatch sid d x = true
  · rw [if_pos h] at hfx
    exact ⟨by rw [← hfx], by rw [← hfx]⟩
  · rw [if_neg h] at hfx
    subst hfx
    exact absurd hm h

lemma find?_none_countP_zero {recs : List AttRecord} {sid : Nat} {d : String}
    (h : recs.find? (pairMatch sid d) = none) :
    recs.countP (pairMatch sid d) = 0 :=
  List.countP_eq_zero.mpr (List.find?_eq_none.mp h)

lemma upsertItem_found (db : AttendanceDB) (sid : Nat) (d st : String)
    (nts : Option String) (hsid : sid ≠ 0) (hd : d ≠ "") (hst : st ≠ "")
    (ex : AttRecord) (hex : db.records.find? (pairMatch sid d) = some ex) :
    upsertItem db ⟨some sid, some d, some st, nts⟩ =
      ({ db with records := updatedRecords db.records sid d st (notesOrNull nts) },
       ⟨true, some UpsertAction.updated, some ex.id, none⟩) := by
  unfold upsertItem
  simp [falsyNat, falsyStr, hsid, hd, hst, hex]

lemma upsertItem_notfound (db : AttendanceDB) (sid : Nat) (d st : String)
    (nts : Option String) (hsid : sid ≠ 0) (hd : d ≠ "") (hst : st ≠ "")
    (hnone : db.records.find? (pairMatch sid d) = none) :
    upsertItem db ⟨some sid, some d, some st, nts⟩ =
      (⟨db.records ++ [⟨db.nextId, sid, d, st, notesOrNull nts⟩], db.nextId + 1⟩,
       ⟨true, some UpsertAction.created, some db.nextId, none⟩) := by
  unfold upsertItem
  simp [falsyNat, falsyStr, hsid, hd, hst, hnone]

lemma upsertItem_invalid (db : AttendanceDB) (it : AttItem)
    (hv : (falsyNat it.student_id || falsyStr it.date || falsyStr it.status) = true) :
    upsertItem db it =
      (db, ⟨false, none, none, some "Missing required fields: student_id, date, status"⟩) := by
  unfold upsertItem
  simp [hv]

lemma not_falsyNat {o : Option Nat} (h : falsyNat o = false) :
    ∃ n, o = some n ∧ n ≠ 0 := by
  cases o with
  | none => simp [falsyNat] at h
  | some n => exact ⟨n, rfl, by simpa [falsyNat] using h⟩

lemma not_falsyStr {o : Option String} (h : falsyStr o = false) :
    ∃ s, o = some s ∧ s ≠ "" := by
  cases o with
  | none => simp [falsyStr] at h
  | some s => exact ⟨s, rfl, by simpa [falsyStr] using h⟩

lemma upsertItem_fst_unique (db : AttendanceDB) (it : AttItem) (h : UniquePairs db) :
    UniquePairs (upsertItem db it).1 := by
  by_cases hv : (falsyNat it.student_id || falsyStr it.date || falsyStr it.status) = true
  · rw [upsertItem_invalid db it hv]
    exact h
  · simp only [Bool.not_eq_true, Bool.or_eq_false_iff] at hv
    obtain ⟨⟨hA, hB⟩, hC⟩ := hv
    obtain ⟨sid, hsid1, hsid2⟩ := not_falsyNat hA
    obtain ⟨d, hd1, hd2⟩ := not_falsyStr hB
    obtain ⟨st, hst1, hst2⟩ := not_falsyStr hC
    have hit : it = ⟨some sid, some d, some st, it.notes⟩ := by
      rw [← hsid1, ← hd1, ← hst1]
    rw [hit]
    cases hfind : db.records.find? (pairMatch sid d) with
    | some ex =>
      rw [upsertItem_found db sid d st it.notes hsid2 hd2 hst2 ex hfind]
      intro sid' d'
      unfold pairCount
      rw [countP_updatedRecords]
      exact h sid' d'
    | none =>
      rw [upsertItem_notfound db sid d st it.notes hsid2 hd2 hst2 hfind]
      intro sid' d'
      unfold pairCount
      simp only [List.countP_append, List.countP_cons, List.countP_nil]
      by_cases hmatch :
          pairMatch sid' d' ⟨db.nextId, sid, d, st, notesOrNull it.notes⟩ = true
      · have hpair : sid = sid' ∧ d = d' := by simpa [pairMatch] using hmatch
        have h0 : db.records.countP (pairMatch sid' d') = 0 := by
          rw [← hpair.1, ← hpair.2]
          exact find?_none_countP_zero hfind
        simp [hmatch, h0]
      · have hle := h sid' d'
        unfold pairCount at hle
        simp only [Bool.not_eq_true] at hmatch
        simp [hmatch]
        omega

lemma processRecords_fst_unique (items : List AttItem) (db : AttendanceDB)
    (h : UniquePairs db) : UniquePairs (processRecords db items).1 := by
  induction items generalizing db with
  | nil => exact h
  | cons it rest ih =>
    have hstep : (processRecords db (it :: rest)).1 =
        (processRecords (upsertItem db it).1 rest).1 := rfl
    rw [hstep]
    exact ih (upsertItem db it).1 (upsertItem_fst_unique db it h)

/-- C1: for every attendance upsert submission the engine first queries
existence of a record for (student_id, date); if one exists it updates
that record in place and reports action = updated with the existing id,
otherwise it inserts a new record and reports action = created with the
newly generated id; and any sequence of upserts preserves the at-most-one
record per (student, date) invariant. -/
theorem recordAttendance_upsert_unique (db : AttendanceDB) (items : List AttItem)
    (sid : Nat) (d st : String) (nts : Option String)
    (hdb : UniquePairs db) (hsid : sid ≠ 0) (hd : d ≠ "") (hst : st ≠ "") :
    (∀ ex, db.records.find? (pairMatch sid d) = some ex →
      upsertItem db ⟨some sid, some d, some st, nts⟩ =
        ({ db with records := updatedRecords db.records sid d st (notesOrNull nts) },
         ⟨true, some UpsertAction.updated, some ex.id, none⟩)) ∧
    (db.records.find? (pairMatch sid d) = none →
      upsertItem db ⟨some sid, some d, some st, nts⟩ =
        (⟨db.records ++ [⟨db.nextId, sid, d, st, notesOrNull nts⟩], db.nextId + 1⟩,
         ⟨true, some UpsertAction.created, some db.nextId, none⟩)) ∧
    UniquePairs (recordAttendance db items).1 :=
  ⟨fun ex hex => upsertItem_found db sid d st nts hsid hd hst ex hex,
   fun hnone => upsertItem_notfound db sid d st nts hsid hd hst hnone,
   processRecords_fst_unique items db hdb⟩

/-- Witness for C1 at a concrete input. -/
theorem recordAttendance_upsert_unique_witness :
    (∀ ex, (AttendanceDB.mk [] 1).records.find? (pairMatch 1 "2025-01-06") = some ex →
      upsertItem ⟨[], 1⟩ ⟨some 1, some "2025-01-06", some "present", none⟩ =
        ({ AttendanceDB.mk [] 1 with
            records := updatedRecords (AttendanceDB.mk [] 1).records 1 "2025-01-06"
              "present" (notesOrNull none) },
         ⟨true, some UpsertAction.updated, some ex.id, none⟩)) ∧
    ((AttendanceDB.mk [] 1).records.find? (pairMatch 1 "2025-01-06") = none →
      upsertItem ⟨[], 1⟩ ⟨some 1, some "2025-01-06", some "present", none⟩ =
        (⟨(AttendanceDB.mk [] 1).records ++
            [⟨(AttendanceDB.mk [] 1).nextId, 1, "2025-01-06", "present", notesOrNull none⟩],
          (AttendanceDB.mk [] 1).nextId + 1⟩,
         ⟨true, some UpsertAction.created, some (AttendanceDB.mk [] 1).nextId, none⟩)) ∧
    UniquePairs (recordAttendance ⟨[], 1⟩
      [⟨some 1, some "2025-01-06", some "present", none⟩]).1 :=
  recordAttendance_upsert_unique ⟨[], 1⟩
    [⟨some 1, some "2025-01-06", some "present", none⟩] 1 "2025-01-06" "present" none
    (fun sid d => by simp [pairCount]) (by decide) (by decide) (by decide)

lemma upsert_pair_state (db : AttendanceDB) (sid : Nat) (d st : String)
    (nts : Option String) (hsid : sid ≠ 0) (hd : d ≠ "") (hst : st ≠ "")
    (hle : pairCount db sid d ≤ 1) :
    pairCount (upsertItem db ⟨some sid, some d, some st, nts⟩).1 sid d = 1 ∧
    ∀ r ∈ (upsertItem db ⟨some sid, some d, some st, nts⟩).1.records,
      pairMatch sid d r = true → r.status = st ∧ r.notes = notesOrNull nts := by
  unfold pairCount at hle
  cases hfind : db.records.find? (pairMatch sid d) with
  | some ex =>
    rw [upsertItem_found db sid d st nts hsid hd hst ex hfind]
    constructor
    · unfold pairCount
      show (updatedRecords db.records sid d st (notesOrNull nts)).countP (pairMatch sid d) = 1
      rw [countP_updatedRecords]
      have h1 : 0 < db.records.countP (pairMatch sid d) :=
        List.countP_pos_iff.mpr ⟨ex, List.mem_of_find?_eq_some hfind, List.find?_some hfind⟩
      omega
    · intro r hr hm
      exact mem_updatedRecords_status _ _ _ _ _ r hr hm
  | none =>
    rw [upsertItem_notfound db sid d st nts hsid hd hst hfind]
    have h0 : db.records.countP (pairMatch sid d) = 0 := find?_none_countP_zero hfind
    constructor
    · unfold pairCount
      show (db.records ++ [(⟨db.nextId, sid, d, st, notesOrNull nts⟩ : AttRecord)]).countP
          (pairMatch sid d) = 1
      simp [List.countP_append, List.countP_cons, h0, pairMatch]
    · intro r hr hm
      rcases List.mem_append.mp hr with hmem | hmem
      · exact absurd hm (List.countP_eq_zero.mp h0 r hmem)
      · have : r = ⟨db.nextId, sid, d, st, notesOrNull nts⟩ := by simpa using hmem
        subst this
        exact ⟨rfl, rfl⟩

lemma filter_map_status (recs : List AttRecord) (p : AttRecord → Bool) (st : String)
    (hc : recs.countP p = 1) (hall : ∀ r ∈ recs, p r = true → r.status = st) :
    (recs.filter p).map AttRecord.status = [st] := by
  rw [List.countP_eq_length_filter] at hc
  obtain ⟨x, hx⟩ := List.length_eq_one.mp hc
  have hxmem : x ∈ recs.filter p := by rw [hx]; exact List.mem_singleton.mpr rfl
  obtain ⟨hxin, hxp⟩ := List.mem_filter.mp hxmem
  rw [hx]
  simp [hall x hxin hxp]

/-- C2: calling the upsert procedure for the same (student_id, date) first
with status1 and then with status2 leaves exactly one attendance record
for that pair, and that record carries status2 (idempotent convergence). -/
theorem upsert_twice_converges (db : AttendanceDB) (sid : Nat)
    (d st1 st2 : String) (nts1 nts2 : Option String)
    (hdb : UniquePairs db) (hsid : sid ≠ 0) (hd : d ≠ "")
    (hst1 : st1 ≠ "") (hst2 : st2 ≠ "") (hne : st1 ≠ st2) :
    (((upsertItem (upsertItem db ⟨some sid, some d, some st1, nts1⟩).1
        ⟨some sid, some d, some st2, nts2⟩).1.records.filter
          (pairMatch sid d)).map AttRecord.status) = [st2] := by
  obtain ⟨hc1, _⟩ :=
    upsert_pair_state db sid d st1 nts1 hsid hd hst1 (hdb sid d)
  obtain ⟨hc2, hall2⟩ :=
    upsert_pair_state (upsertItem db ⟨some sid, some d, some st1, nts1⟩).1
      sid d st2 nts2 hsid hd hst2 (le_of_eq hc1)
  exact filter_map_status _ _ _ hc2
    (fun r hr hm => (hall2 r hr hm).1)

/-- Witness for C2 at a concrete input. -/
theorem upsert_twice_converges_witness :
    (((upsertItem (upsertItem ⟨[], 1⟩ ⟨some 1, some "2025-01-06", some "present", none⟩).1
        ⟨some 1, some "2025-01-06", some "absent", none⟩).1.records.filter
          (pairMatch 1 "2025-01-06")).map AttRecord.status) = ["absent"] :=
  upsert_twice_converges ⟨[], 1⟩ 1 "2025-01-06" "present" "absent" none none
    (fun sid d => by simp [pairCount]) (by decide) (by decide) (by decide) (by decide)
    (by decide)

lemma upsert_valid_persists (db : AttendanceDB) (sid : Nat) (d st : String)
    (nts : Option String) (hsid : sid ≠ 0) (hd : d ≠ "") (hst : st ≠ "") :
    (upsertItem db ⟨some sid, some d, some st, nts⟩).2.success = true ∧
    ∃ r ∈ (upsertItem db ⟨some sid, some d, some st, nts⟩).1.records,
      pairMatch sid d r = true ∧ r.status = st := by
  cases hfind : db.records.find? (pairMatch sid d) with
  | some ex =>
    rw [upsertItem_found db sid d st nts hsid hd hst ex hfind]
    refine ⟨rfl, ⟨{ ex with status := st, notes := notesOrNull nts }, ?_, ?_, rfl⟩⟩
    · exact List.mem_map.mpr
        ⟨ex, List.mem_of_find?_eq_some hfind, by rw [if_pos (List.find?_some hfind)]⟩
    · rw [pairMatch_update]
      exact List.find?_some hfind
  | none =>
    rw [upsertItem_notfound db sid d st nts hsid hd hst hfind]
    refine ⟨rfl, ⟨⟨db.nextId, sid, d, st, notesOrNull nts⟩, ?_, ?_, rfl⟩⟩
    · simp
    · simp [pairMatch]

lemma recordAttendance_two (db : AttendanceDB) (it1 it2 : AttItem) :
    recordAttendance db [it1, it2] =
      ((upsertItem (upsertItem db it1).1 it2).1,
       ⟨200, true,
        [(upsertItem db it1).2, (upsertItem (upsertItem db it1).1 it2).2],
        ⟨2,
         List.countP ItemResult.success
           [(upsertItem db it1).2, (upsertItem (upsertItem db it1).1 it2).2],
         List.countP (fun r => !r.success)
           [(upsertItem db it1).2, (upsertItem (upsertItem db it1).1 it2).2]⟩⟩) := rfl

/-- C3: in a two-element batch whose first item is well-formed and whose
second item misses a required field, the well-formed item succeeds and is
persisted, the malformed item is reported as failed without aborting its
sibling, and the aggregate summary is total 2, successful 1, failed 1. -/
theorem batch_isolates_failures (db : AttendanceDB) (it2 : AttItem) (sid : Nat)
    (d st : String) (nts : Option String)
    (hsid : sid ≠ 0) (hd : d ≠ "") (hst : st ≠ "")
    (h2 : (falsyNat it2.student_id || falsyStr it2.date || falsyStr it2.status) = true) :
    (recordAttendance db [⟨some sid, some d, some st, nts⟩, it2]).2.summary = ⟨2, 1, 1⟩ ∧
    ((recordAttendance db [⟨some sid, some d, some st, nts⟩, it2]).2.results.map
      ItemResult.success) = [true, false] ∧
    ∃ r ∈ (recordAttendance db [⟨some sid, some d, some st, nts⟩, it2]).1.records,
      pairMatch sid d r = true ∧ r.status = st := by
  obtain ⟨hsucc, r, hmem, hpm, hstat⟩ :=
    upsert_valid_persists db sid d st nts hsid hd hst
  have hstep2 := upsertItem_invalid
    (upsertItem db ⟨some sid, some d, some st, nts⟩).1 it2 h2
  have h2r : (upsertItem (upsertItem db ⟨some sid, some d, some st, nts⟩).1 it2).2 =
      ⟨false, none, none, some "Missing required fields: student_id, date, status"⟩ := by
    rw [hstep2]
  have h2db : (upsertItem (upsertItem db ⟨some sid, some d, some st, nts⟩).1 it2).1 =
      (upsertItem db ⟨some sid, some d, some st, nts⟩).1 := by
    rw [hstep2]
  refine ⟨?_, ?_, ?_⟩
  · rw [recordAttendance_two]
    simp [h2r, List.countP_cons, List.countP_nil, hsucc]
  · rw [recordAttendance_two]
    simp [h2r, hsucc]
  · rw [recordAttendance_two]
    show ∃ x ∈ (upsertItem (upsertItem db ⟨some sid, some d, some st, nts⟩).1 it2).1.records,
      pairMatch sid d x = true ∧ x.status = st
    rw [h2db]
    exact ⟨r, hmem, hpm, hstat⟩

/-- Witness for C3 at a concrete input. -/
theorem batch_isolates_failures_witness :
    (recordAttendance ⟨[], 1⟩
      [⟨some 1, some "2025-01-06", some "present", none⟩, ⟨none, none, none, none⟩]).2.summary =
        ⟨2, 1, 1⟩ ∧
    ((recordAttendance ⟨[], 1⟩
      [⟨some 1, some "2025-01-06", some "present", none⟩,
       ⟨none, none, none, none⟩]).2.results.map ItemResult.success) = [true, false] ∧
    ∃ r ∈ (recordAttendance ⟨[], 1⟩
      [⟨some 1, some "2025-01-06", some "present", none⟩,
       ⟨none, none, none, none⟩]).1.records,
      pairMatch 1 "2025-01-06" r = true ∧ r.status = "present" :=
  batch_isolates_failures ⟨[], 1⟩ ⟨none, none, none, none⟩ 1 "2025-01-06" "present" none
    (by decide) (by decide) (by decide) (by decide)

lemma mem_updatedRecords_of_match (recs : List AttRecord) (sid : Nat) (d st : String)
    (nts : Option String) (ex : AttRecord) (hmem : ex ∈ recs)
    (hp : pairMatch sid d ex = true) :
    { ex with status := st, notes := nts } ∈ updatedRecords recs sid d st nts := by
  unfold updatedRecords
  exact List.mem_map.mpr ⟨ex, hmem, by rw [if_pos hp]⟩

lemma markPresentStep_result (db : AttendanceDB) (nts : Option String) (d : String)
    (sid : Nat) :
    (markPresentStep db nts d sid).2.success = true ∧
    ((markPresentStep db nts d sid).2.action = some UpsertAction.created ∨
     (markPresentStep db nts d sid).2.action = some UpsertAction.updated) := by
  unfold markPresentStep
  cases hfind : db.records.find? (pairMatch sid d) <;> simp [hfind]

lemma markPresentStep_present (db : AttendanceDB) (nts : Option String) (d : String)
    (sid : Nat) :
    ∃ r ∈ (markPresentStep db nts d sid).1.records,
      pairMatch sid d r = true ∧ r.status = "present" := by
  unfold markPresentStep
  cases hfind : db.records.find? (pairMatch sid d) with
  | some ex =>
    simp only [hfind]
    exact ⟨{ ex with status := "present", notes := notesOrNull nts },
      mem_updatedRecords_of_match db.records sid d "present" (notesOrNull nts) ex
        (List.mem_of_find?_eq_some hfind) (List.find?_some hfind),
      by rw [pairMatch_update]; exact List.find?_some hfind, rfl⟩
  | none =>
    simp only [hfind]
    exact ⟨⟨db.nextId, sid, d, "present", notesOrNull nts⟩, by simp, by simp [pairMatch], rfl⟩

lemma markPresentStep_preserves_present (db : AttendanceDB) (nts : Option String)
    (d : String) (sid sid' : Nat)
    (h : ∃ r ∈ db.records, pairMatch sid' d r = true ∧ r.status = "present") :
    ∃ r ∈ (markPresentStep db nts d sid).1.records,
      pairMatch sid' d r = true ∧ r.status = "present" := by
  obtain ⟨r, hmem, hpm, hstat⟩ := h
  unfold markPresentStep
  cases hfind : db.records.find? (pairMatch sid d) with
  | some ex =>
    simp only [hfind]
    by_cases hp : pairMatch sid d r = true
    · exact ⟨{ r with status := "present", notes := notesOrNull nts },
        mem_updatedRecords_of_match db.records sid d "present" (notesOrNull nts) r hmem hp,
        by rw [pairMatch_update]; exact hpm, rfl⟩
    · refine ⟨r, ?_, hpm, hstat⟩
      unfold updatedRecords
      exact List.mem_map.mpr ⟨r, hmem, by rw [if_neg hp]⟩
  | none =>
    simp only [hfind]
    exact ⟨r, List.mem_append_left _ hmem, hpm, hstat⟩

lemma processStudents_preserves_present (nts : Option String) (d : String)
    (ids : List Nat) (sid' : Nat) :
    ∀ db : AttendanceDB,
      (∃ r ∈ db.records, pairMatch sid' d r = true ∧ r.status = "present") →
      ∃ r ∈ (processStudents db nts d ids).1.records,
        pairMatch sid' d r = true ∧ r.status = "present" := by
  induction ids with
  | nil => exact fun db h => h
  | cons sid rest ih =>
    intro db h
    have hps : (processStudents db nts d (sid :: rest)).1 =
        (processStudents (markPresentStep db nts d sid).1 nts d rest).1 := rfl
    rw [hps]
    exact ih _ (markPresentStep_preserves_present db nts d sid sid' h)

lemma processStudents_results (nts : Option String) (d : String) (ids : List Nat) :
    ∀ db : AttendanceDB,
      (processStudents db nts d ids).2.length = ids.length ∧
      (∀ r ∈ (processStudents db nts d ids).2,
        r.success = true ∧
        (r.action = some UpsertAction.created ∨ r.action = some UpsertAction.updated)) ∧
      (∀ sid ∈ ids, ∃ r ∈ (processStudents db nts d ids).1.records,
        pairMatch sid d r = true ∧ r.status = "present") := by
  induction ids with
  | nil => exact fun db => ⟨rfl, by simp [processStudents], by simp⟩
  | cons sid rest ih =>
    intro db
    have hps : processStudents db nts d (sid :: rest) =
        ((processStudents (markPresentStep db nts d sid).1 nts d rest).1,
         (markPresentStep db nts d sid).2 ::
           (processStudents (markPresentStep db nts d sid).1 nts d rest).2) := rfl
    rw [hps]
    obtain ⟨ihlen, ihres, ihpres⟩ := ih (markPresentStep db nts d sid).1
    refine ⟨by simp [ihlen], ?_, ?_⟩
    · intro r hr
      rcases List.mem_cons.mp hr with h | h
      · subst h
        exact markPresentStep_result db nts d sid
      · exact ihres r h
    · intro s hs
      rcases List.mem_cons.mp hs with h | h
      · subst h
        exact processStudents_preserves_present nts d rest s _
          (markPresentStep_present db nts d s)
      · exact ihpres s h

lemma markAllPresent_run (students : List Student) (db : AttendanceDB) (cid : Nat)
    (d : String) (nts : Option String)
    (hcid : cid ≠ 0) (hd : d ≠ "") (hne : activeStudentIds students cid ≠ []) :
    markAllPresent students db (some cid) (some d) nts =
      ((processStudents db nts d (activeStudentIds students cid)).1,
       ⟨200, true, (processStudents db nts d (activeStudentIds students cid)).2,
        ⟨(processStudents db nts d (activeStudentIds students cid)).2.length,
         List.countP MpItemResult.success
           (processStudents db nts d (activeStudentIds students cid)).2,
         List.countP (fun r => !r.success)
           (processStudents db nts d (activeStudentIds students cid)).2⟩,
        none⟩) := by
  unfold markAllPresent
  have h1 : falsyNat (some cid) = false := by simp [falsyNat, hcid]
  have h2 : falsyStr (some d) = false := by simp [falsyStr, hd]
  have h3 : (activeStudentIds students cid).isEmpty = false :=
    List.isEmpty_eq_false.mpr hne
  simp [h1, h2, h3]

/-- C7: mark-all-present on a class with a nonempty set of active students
produces exactly one successful result per active student (each created or
updated), and afterwards every active student has an attendance record
with status present for the given date, regardless of prior state. -/
theorem markAllPresent_marks_all (students : List Student) (db : AttendanceDB)
    (cid : Nat) (d : String) (nts : Option String)
    (hcid : cid ≠ 0) (hd : d ≠ "") (hne : activeStudentIds students cid ≠ []) :
    (markAllPresent students db (some cid) (some d) nts).2.httpStatus = 200 ∧
    (markAllPresent students db (some cid) (some d) nts).2.results.length =
      (activeStudentIds students cid).length ∧
    (∀ r ∈ (markAllPresent students db (some cid) (some d) nts).2.results,
      r.success = true ∧
      (r.action = some UpsertAction.created ∨ r.action = some UpsertAction.updated)) ∧
    (∀ sid ∈ activeStudentIds students cid,
      ∃ r ∈ (markAllPresent students db (some cid) (some d) nts).1.records,
        pairMatch sid d r = true ∧ r.status = "present") := by
  obtain ⟨hlen, hres, hpres⟩ :=
    processStudents_results nts d (activeStudentIds students cid) db
  rw [markAllPresent_run students db cid d nts hcid hd hne]
  exact ⟨rfl, hlen, hres, hpres⟩

/-- Witness for C7 at a concrete input. -/
theorem markAllPresent_marks_all_witness :
    (markAllPresent [⟨1, some 1, "active"⟩] ⟨[], 1⟩
      (some 1) (some "2025-01-06") none).2.httpStatus = 200 ∧
    (markAllPresent [⟨1, some 1, "active"⟩] ⟨[], 1⟩
      (some 1) (some "2025-01-06") none).2.results.length =
      (activeStudentIds [⟨1, some 1, "active"⟩] 1).length ∧
    (∀ r ∈ (markAllPresent [⟨1, some 1, "active"⟩] ⟨[], 1⟩
      (some 1) (some "2025-01-06") none).2.results,
      r.success = true ∧
      (r.action = some UpsertAction.created ∨ r.action = some UpsertAction.updated)) ∧
    (∀ sid ∈ activeStudentIds [⟨1, some 1, "active"⟩] 1,
      ∃ r ∈ (markAllPresent [⟨1, some 1, "active"⟩] ⟨[], 1⟩
        (some 1) (some "2025-01-06") none).1.records,
        pairMatch sid "2025-01-06" r = true ∧ r.status = "present") :=
  markAllPresent_marks_all [⟨1, some 1, "active"⟩] ⟨[], 1⟩ 1 "2025-01-06" none
    (by decide) (by decide) (by decide)

lemma recordAttendance_one (db : AttendanceDB) (it : AttItem) :
    recordAttendance db [it] =
      ((upsertItem db it).1,
       ⟨200, true, [(upsertItem db it).2],
        ⟨1, List.countP ItemResult.success [(upsertItem db it).2],
         List.countP (fun r => !r.success) [(upsertItem db it).2]⟩⟩) := rfl

/-- C8 counterexample: a single submission missing its date is answered
with HTTP 200 (the uniform success envelope), not 400; the validation
failure is only recorded per-item inside the results list. -/
theorem single_missing_field_no_400 :
    (recordAttendance ⟨[], 1⟩ [⟨some 1, none, some "present", none⟩]).2.httpStatus = 200 ∧
    (recordAttendance ⟨[], 1⟩ [⟨some 1, none, some "present", none⟩]).2.httpStatus ≠ 400 ∧
    ((recordAttendance ⟨[], 1⟩ [⟨some 1, none, some "present", none⟩]).2.results.map
      ItemResult.error) = [some "Missing required fields: student_id, date, status"] :=
  ⟨rfl, by decide, rfl⟩

/-- C8 (amended): a single submission missing a required field fails with
the per-item validation error "Missing required fields: student_id, date,
status" and is not persisted, but the handler replies with an HTTP 200
envelope (success true, summary total 1, successful 0, failed 1) rather
than a 400 status. -/
theorem single_missing_field_local_error (db : AttendanceDB) (it : AttItem)
    (h : (falsyNat it.student_id || falsyStr it.date || falsyStr it.status) = true) :
    (recordAttendance db [it]).2.httpStatus = 200 ∧
    (recordAttendance db [it]).2.success = true ∧
    (recordAttendance db [it]).2.results =
      [⟨false, none, none, some "Missing required fields: student_id, date, status"⟩] ∧
    (recordAttendance db [it]).2.summary = ⟨1, 0, 1⟩ ∧
    (recordAttendance db [it]).1 = db := by
  have h1 := upsertItem_invalid db it h
  have h1r : (upsertItem db it).2 =
      ⟨false, none, none, some "Missing required fields: student_id, date, status"⟩ := by
    rw [h1]
  have h1db : (upsertItem db it).1 = db := by rw [h1]
  rw [recordAttendance_one]
  refine ⟨rfl, rfl, ?_, ?_, h1db⟩
  · rw [h1r]
  · rw [h1r]
    rfl

/-- Witness for the amended C8 at a concrete input. -/
theorem single_missing_field_local_error_witness :
    (recordAttendance ⟨[], 1⟩ [⟨some 1, some "2025-01-06", none, none⟩]).2.httpStatus = 200 ∧
    (recordAttendance ⟨[], 1⟩ [⟨some 1, some "2025-01-06", none, none⟩]).2.success = true ∧
    (recordAttendance ⟨[], 1⟩ [⟨some 1, some "2025-01-06", none, none⟩]).2.results =
      [⟨false, none, none, some "Missing required fields: student_id, date, status"⟩] ∧
    (recordAttendance ⟨[], 1⟩ [⟨some 1, some "2025-01-06", none, none⟩]).2.summary =
      ⟨1, 0, 1⟩ ∧
    (recordAttendance ⟨[], 1⟩ [⟨some 1, some "2025-01-06", none, none⟩]).1 = ⟨[], 1⟩ :=
  single_missing_field_local_error ⟨[], 1⟩ ⟨some 1, some "2025-01-06", none, none⟩
    (by decide)

/-- C10: when a record already exists for (student_id, date), an upsert
that omits the notes field or passes a falsy notes value overwrites the
stored notes with NULL; the update path of mark-all-present with no shared
note does the same. -/
theorem falsy_notes_overwrite (db : AttendanceDB) (sid : Nat) (d st : String)
    (nts : Option String)
    (hsid : sid ≠ 0) (hd : d ≠ "") (hst : st ≠ "")
    (hfalsy : notesOrNull nts = none)
    (hex : ∃ r ∈ db.records, pairMatch sid d r = true) :
    (∀ r ∈ (upsertItem db ⟨some sid, some d, some st, nts⟩).1.records,
      pairMatch sid d r = true → r.notes = none) ∧
    (∀ r ∈ (markPresentStep db none d sid).1.records,
      pairMatch sid d r = true → r.notes = none) := by
  obtain ⟨x, hxmem, hxp⟩ := hex
  have hfs : (db.records.find? (pairMatch sid d)).isSome :=
    List.find?_isSome.mpr ⟨x, hxmem, hxp⟩
  obtain ⟨ex, hfind⟩ := Option.isSome_iff_exists.mp hfs
  constructor
  · rw [upsertItem_found db sid d st nts hsid hd hst ex hfind]
    intro r hr hm
    rw [(mem_updatedRecords_status _ _ _ _ _ r hr hm).2, hfalsy]
  · unfold markPresentStep
    simp only [hfind]
    intro r hr hm
    exact (mem_updatedRecords_status _ _ _ _ _ r hr hm).2

/-- Witness for C10 at a concrete input. -/
theorem falsy_notes_overwrite_witness :
    (∀ r ∈ (upsertItem ⟨[⟨1, 1, "2025-01-06", "absent", some "sick"⟩], 2⟩
        ⟨some 1, some "2025-01-06", some "late", none⟩).1.records,
      pairMatch 1 "2025-01-06" r = true → r.notes = none) ∧
    (∀ r ∈ (markPresentStep ⟨[⟨1, 1, "2025-01-06", "absent", some "sick"⟩], 2⟩
        none "2025-01-06" 1).1.records,
      pairMatch 1 "2025-01-06" r = true → r.notes = none) :=
  falsy_notes_overwrite ⟨[⟨1, 1, "2025-01-06", "absent", some "sick"⟩], 2⟩ 1
    "2025-01-06" "late" none (by decide) (by decide) (by decide) (by decide)
    ⟨⟨1, 1, "2025-01-06", "absent", some "sick"⟩, by simp, by decide⟩

/-! ## Lemmas and theorems about the authentication layer -/

/-- C4: with a bearer token whose signature does not match, or a malformed
bearer token, the middleware rejects with the InvalidToken message; with a
correctly signed token whose expiry has passed it rejects with the
distinct TokenExpired message telling the client to log in again; the two
rejections are never conflated. -/
theorem verify_rejections_distinct (now : Nat) (users : List DbUser)
    (p : JwtPayload) (sig : String × JwtPayload) (raw : String)
    (suid : Option Nat) (sun : Option String)
    (hsig : sig ≠ (JWT_SECRET, p)) (hexp : p.exp ≤ now) :
    authenticateToken now users ⟨some (Token.signed p sig), suid, sun⟩ =
      AuthOutcome.fail 401 "Invalid token." ∧
    authenticateToken now users ⟨some (Token.malformed raw), suid, sun⟩ =
      AuthOutcome.fail 401 "Invalid token." ∧
    authenticateToken now users ⟨some (Token.signed p (JWT_SECRET, p)), suid, sun⟩ =
      AuthOutcome.fail 401 "Token expired. Please login again." ∧
    ("Invalid token." : String) ≠ "Token expired. Please login again." := by
  refine ⟨?_, ?_, ?_, by decide⟩
  · unfold authenticateToken extractToken
    simp [jwtVerify, hsig]
  · unfold authenticateToken extractToken
    simp [jwtVerify]
  · unfold authenticateToken extractToken
    simp [jwtVerify, hexp]

/-- Witness for C4 at a concrete input. -/
theorem verify_rejections_distinct_witness :
    authenticateToken 5 []
      ⟨some (Token.signed ⟨1, none, none, 0⟩ ("x", ⟨1, none, none, 0⟩)), none, none⟩ =
      AuthOutcome.fail 401 "Invalid token." ∧
    authenticateToken 5 [] ⟨some (Token.malformed "bad"), none, none⟩ =
      AuthOutcome.fail 401 "Invalid token." ∧
    authenticateToken 5 []
      ⟨some (Token.signed ⟨1, none, none, 0⟩ (JWT_SECRET, ⟨1, none, none, 0⟩)),
       none, none⟩ =
      AuthOutcome.fail 401 "Token expired. Please login again." ∧
    ("Invalid token." : String) ≠ "Token expired. Please login again." :=
  verify_rejections_distinct 5 [] ⟨1, none, none, 0⟩ ("x", ⟨1, none, none, 0⟩) "bad"
    none none (by decide) (by decide)

/-- C5: requireAdmin rejects a request with no attached identity with 401,
rejects an attached non-admin identity with 403, passes an admin identity,
and the two rejection statuses are distinct. -/
theorem requireAdmin_cases (row : List (String × String)) :
    requireAdmin none = GuardResult.reject 401 "Authentication required." ∧
    (userRole row ≠ some "admin" →
      requireAdmin (some row) = GuardResult.reject 403 "Admin access required.") ∧
    (userRole row = some "admin" → requireAdmin (some row) = GuardResult.proceed) ∧
    ((401 : Nat) ≠ 403) := by
  refine ⟨rfl, ?_, ?_, by decide⟩
  · intro h
    unfold requireAdmin
    simp [h]
  · intro h
    unfold requireAdmin
    simp [h]

/-- Witness for C5 at a concrete input. -/
theorem requireAdmin_cases_witness :
    requireAdmin none = GuardResult.reject 401 "Authentication required." ∧
    (userRole [("role", "teacher")] ≠ some "admin" →
      requireAdmin (some [("role", "teacher")]) =
        GuardResult.reject 403 "Admin access required.") ∧
    (userRole [("role", "teacher")] = some "admin" →
      requireAdmin (some [("role", "teacher")]) = GuardResult.proceed) ∧
    ((401 : Nat) ≠ 403) :=
  requireAdmin_cases [("role", "teacher")]

/-- Extract the claims object of a well-formed token. -/
def tokenPayload : Token → Option JwtPayload
  | .malformed _ => none
  | .signed p _ => some p

/-- C6 counterexample: the 1-hour session-bridge token synthesized for
cookie-session user 5 carries no role claim — its role field is none —
refuting that every issued token embeds id, username, and role claims. -/
theorem session_token_lacks_role :
    (tokenPayload (sessionBridgeToken 0 5 (some "alice"))).map JwtPayload.role =
      some none ∧
    (tokenPayload (sessionBridgeToken 0 5 (some "alice"))).map JwtPayload.exp =
      some 3600 :=
  ⟨rfl, rfl⟩

/-- C6 (amended): the normal-login token embeds the user id, username, and
role claims with a 24-hour expiry, while the internal session-bridge token
embeds only the session user id and username (no role claim) with a 1-hour
expiry. -/
theorem issued_token_claims (now : Nat) (u : DbUser) (uid : Nat)
    (uname : Option String) :
    tokenPayload (generateToken now u) =
      some ⟨u.id, some u.username, some u.role, now + 86400⟩ ∧
    tokenPayload (sessionBridgeToken now uid uname) =
      some ⟨uid, uname, none, now + 3600⟩ :=
  ⟨rfl, rfl⟩

lemma keys_omitPasswordHash (row : List (String × String)) :
    "password_hash" ∉ (omitPasswordHash row).map Prod.fst := by
  intro hmem
  rcases List.mem_map.mp hmem with ⟨kv, hkv, hfst⟩
  have hne := (List.mem_filter.mp hkv).2
  simp only [decide_eq_true_eq] at hne
  exact hne hfst

lemma keys_selectColumns (cols : List String) (row : List (String × String))
    (k : String) (hk : k ∈ (selectColumns cols row).map Prod.fst) : k ∈ cols := by
  rcases List.mem_map.mp hk with ⟨kv, hkv, hfst⟩
  rcases List.mem_filterMap.mp hkv with ⟨c, hc, hfc⟩
  rcases Option.map_eq_some'.mp hfc with ⟨kv0, hkv0, heq⟩
  subst heq
  simpa [← hfst] using hc

lemma login_user_shape (now : Nat) (users : List DbUser)
    (username password : Option String) (row : List (String × String))
    (h : (login now users username password).user = some row) :
    ∃ u, row = omitPasswordHash (userFullRow u) := by
  unfold login at h
  split at h
  · exact Option.noConfusion h
  · split at h
    · exact Option.noConfusion h
    · split at h
      · exact Option.noConfusion h
      · exact ⟨_, (Option.some.inj h).symm⟩

lemma authenticateToken_user_shape (now : Nat) (users : List DbUser)
    (req : AuthRequest) (row : List (String × String))
    (h : authenticateToken now users req = AuthOutcome.ok row) :
    ∃ u, row = selectColumns authUserColumns (userFullRow u) := by
  unfold authenticateToken at h
  split at h
  · exact AuthOutcome.noConfusion h
  · split at h
    · exact AuthOutcome.noConfusion h
    · exact AuthOutcome.noConfusion h
    · split at h
      · exact AuthOutcome.noConfusion h
      · exact ⟨_, (AuthOutcome.ok.inj h).symm⟩

/-- C9: the password hash is never transmitted outward — the user object
in the login response, the user row the authentication middleware attaches
to the request, and the profile response all lack the password_hash key. -/
theorem password_hash_never_transmitted (now : Nat) (users : List DbUser)
    (req : AuthRequest) (username password : Option String) :
    (∀ row, (login now users username password).user = some row →
      "password_hash" ∉ row.map Prod.fst) ∧
    (∀ row, authenticateToken now users req = AuthOutcome.ok row →
      "password_hash" ∉ row.map Prod.fst) ∧
    (∀ row, authenticateToken now users req = AuthOutcome.ok row →
      "password_hash" ∉ (getProfile row).map Prod.fst) := by
  refine ⟨?_, ?_, ?_⟩
  · intro row h
    obtain ⟨u, hrow⟩ := login_user_shape now users username password row h
    rw [hrow]
    exact keys_omitPasswordHash _
  · intro row h
    obtain ⟨u, hrow⟩ := authenticateToken_user_shape now users req row h
    rw [hrow]
    intro hk
    exact absurd (keys_selectColumns _ _ _ hk) (by decide)
  · intro row _
    exact keys_omitPasswordHash row

/-- Witness for C9 at a concrete input on which both login and the
middleware succeed. -/
theorem password_hash_never_transmitted_witness :
    (∀ row, (login 0 [⟨1, "admin", "admin@school-os.local", bcryptHash "admin",
        "admin", "System Administrator", "t0", "t0"⟩]
        (some "admin") (some "admin")).user = some row →
      "password_hash" ∉ row.map Prod.fst) ∧
    (∀ row, authenticateToken 0 [⟨1, "admin", "admin@school-os.local",
        bcryptHash "admin", "admin", "System Administrator", "t0", "t0"⟩]
        ⟨some (generateToken 0 ⟨1, "admin", "admin@school-os.local",
          bcryptHash "admin", "admin", "System Administrator", "t0", "t0"⟩),
         none, none⟩ = AuthOutcome.ok row →
      "password_hash" ∉ row.map Prod.fst) ∧
    (∀ row, authenticateToken 0 [⟨1, "admin", "admin@school-os.local",
        bcryptHash "admin", "admin", "System Administrator", "t0", "t0"⟩]
        ⟨some (generateToken 0 ⟨1, "admin", "admin@school-os.local",
          bcryptHash "admin", "admin", "System Administrator", "t0", "t0"⟩),
         none, none⟩ = AuthOutcome.ok row →
      "password_hash" ∉ (getProfile row).map Prod.fst) :=
  password_hash_never_transmitted 0
    [⟨1, "admin", "admin@school-os.local", bcryptHash "admin", "admin",
      "System Administrator", "t0", "t0"⟩]
    ⟨some (generateToken 0 ⟨1, "admin", "admin@school-os.local", bcryptHash "admin",
      "admin", "System Administrator", "t0", "t0"⟩), none, none⟩
    (some "admin") (some "admin")

end SchoolOS
